import Mathlib

/-! Shallow embedding of the music remote server core: the AppleScript
adapter wrappers from applescript_commands.py, the background monitor with its
change detector from music_monitor.py, the authentication decorator and the
volume route from server.py. A Python state dictionary is modelled as an
Option of a structure: none stands for the empty dictionary, which the code
uses both as the initial value of last_state and as the sentinel returned
when acquisition fails. Floating point values occur only as parsed track
positions and durations, are never compared by the change detector, and are
modelled as rational numbers. String helpers mirror the Python string
methods the code calls and are written by structural recursion over the
character list so that concrete runs reduce in the kernel. -/

/-- Strip of leading and trailing whitespace: Python strip and the strip
applied to subprocess output inside execute_applescript. -/
def pyStrip (s : String) : String :=
  String.mk (((s.data.dropWhile Char.isWhitespace).reverse.dropWhile Char.isWhitespace).reverse)

/-- Lowercasing, Python lower. -/
def pyLower (s : String) : String :=
  String.mk (s.data.map Char.toLower)

/-- Python startswith. -/
def pyStartsWith (s pre : String) : Bool :=
  pre.data.isPrefixOf s.data

/-- Split a character list at every occurrence of the separator. -/
def splitOnChar (sep : Char) : List Char → List (List Char)
  | [] => [[]]
  | c :: rest =>
    let r := splitOnChar sep rest
    if c = sep then [] :: r
    else
      match r with
      | [] => [[c]]
      | h :: t => (c :: h) :: t

/-- Python split with an explicit one character separator, as applied to the
bar separated track answer. -/
def pySplitOn (sep : Char) (s : String) : List String :=
  (splitOnChar sep s.data).map String.mk

/-- Helper of pySplitWs: walk the characters keeping the piece read so far. -/
def splitWsAux : List Char → List Char → List (List Char)
  | [], acc => if acc.isEmpty then [] else [acc.reverse]
  | c :: rest, acc =>
    if c.isWhitespace then
      if acc.isEmpty then splitWsAux rest []
      else acc.reverse :: splitWsAux rest []
    else splitWsAux rest (c :: acc)

/-- Python split with no argument, as applied to the authorization header:
split on runs of whitespace and keep no empty pieces. -/
def pySplitWs (s : String) : List String :=
  (splitWsAux s.data []).map String.mk

/-- Outcome of one osascript subprocess call, the external adapter boundary:
standard output, a timeout, or a raised exception. The exception text is
abstracted to a fixed message because only the Error prefix of the formatted
answer matters downstream. -/
inductive AdapterOutcome where
  | output (stdout : String)
  | timeout
  | exn
deriving DecidableEq

/-- True when the adapter call produced no output. -/
def AdapterOutcome.failed : AdapterOutcome → Bool
  | .output _ => false
  | .timeout => true
  | .exn => true

/-- Model of execute_applescript: stripped standard output on success, an
Error string on timeout or on a raised exception; the function itself never
raises. -/
def execute_applescript : AdapterOutcome → String
  | .output s => pyStrip s
  | .timeout => "Error: Command timed out"
  | .exn => "Error: applescript call raised"

/-- Model of get_playback_state: the adapter answer lowercased. -/
def get_playback_state (o : AdapterOutcome) : String :=
  pyLower (execute_applescript o)

/-- Digits of a decimal literal; fails on an empty list or on a character
that is not a digit. -/
def parseDigits? (cs : List Char) : Option Nat :=
  if cs.isEmpty || !(cs.all Char.isDigit) then none
  else some (cs.foldl (fun n c => 10 * n + (c.toNat - 48)) 0)

/-- Model of the Python float builtin on the strings the bridge produces:
optional sign, an integer part and an optional decimal fraction; any other
shape fails the way float raises ValueError. Exponents and special values
are not modelled; no claim depends on them. -/
def parseFloat? (s : String) : Option Rat :=
  let t := pyStrip s
  let sign : Int := if pyStartsWith t "-" then -1 else 1
  let body : List Char :=
    match t.data with
    | '-' :: rest => rest
    | '+' :: rest => rest
    | cs => cs
  match splitOnChar '.' body with
  | [ip] => (parseDigits? ip).map (fun n => ((sign * n : Int) : Rat))
  | [ip, fp] =>
    match parseDigits? ip, parseDigits? fp with
    | some n, some f =>
      some ((sign : Rat) * ((n : Rat) + (f : Rat) / ((10 : Rat) ^ fp.length)))
    | _, _ => none
  | _ => none

/-- The dictionary returned by get_current_track in applescript_commands.py:
optional track fields, numbers defaulting to zero, a state string, and the
error key present only on the parse failure path (its text is abstracted). -/
structure TrackInfoDict where
  name : Option String
  artist : Option String
  album : Option String
  duration : Rat
  position : Rat
  state : String
  error : Option String := none
deriving DecidableEq

/-- The dictionary get_current_track returns when nothing is playing or the
track script answered with an Error string. -/
def stoppedTrack : TrackInfoDict :=
  { name := none, artist := none, album := none, duration := 0, position := 0,
    state := "stopped" }

/-- The dictionary get_current_track returns from its except branch when a
float conversion fails. -/
def errorTrack : TrackInfoDict :=
  { name := none, artist := none, album := none, duration := 0, position := 0,
    state := "error", error := some "float conversion failed" }

/-- Model of get_current_track: run the track script, return the stopped
placeholder on a No track playing answer or on any Error answer, otherwise
split the answer on the bar character; a failing float conversion lands in
the error placeholder through the except branch. The second argument feeds
the get_playback_state call nested in the success dictionary. -/
def get_current_track (trackCall stateCall : AdapterOutcome) : TrackInfoDict :=
  let result := execute_applescript trackCall
  if result = "No track playing" ∨ pyStartsWith result "Error" then stoppedTrack
  else
    let parts := pySplitOn '|' result
    let dur : Option Rat :=
      if parts.length > 3 then parseFloat? (parts.getD 3 "") else some 0
    let pos : Option Rat :=
      if parts.length > 4 then parseFloat? (parts.getD 4 "") else some 0
    match dur, pos with
    | some d, some q =>
      { name := if parts.length > 0 then some (parts.getD 0 "") else none,
        artist := if parts.length > 1 then some (parts.getD 1 "") else none,
        album := if parts.length > 2 then some (parts.getD 2 "") else none,
        duration := d, position := q,
        state := get_playback_state stateCall }
    | _, _ => errorTrack

/-- The state dictionary built once per poll cycle by _get_current_state in
music_monitor.py. A populated dictionary always carries all seven keys; the
empty dictionary is the value none at every use site. -/
structure Snapshot where
  track_name : Option String
  track_artist : Option String
  track_album : Option String
  position : Rat
  duration : Rat
  state : String
  volume : Int
deriving DecidableEq

/-- Dictionary lookup of the track_name key: none both for the empty
dictionary and for a stored None. -/
def getTrackName : Option Snapshot → Option String
  | none => none
  | some s => s.track_name

/-- Dictionary lookup of the track_artist key. -/
def getTrackArtist : Option Snapshot → Option String
  | none => none
  | some s => s.track_artist

/-- Dictionary lookup of the track_album key. -/
def getTrackAlbum : Option Snapshot → Option String
  | none => none
  | some s => s.track_album

/-- Dictionary lookup of the position key; populated dictionaries always
carry it. -/
def getPosition : Option Snapshot → Option Rat
  | none => none
  | some s => some s.position

/-- Dictionary lookup of the duration key. -/
def getDuration : Option Snapshot → Option Rat
  | none => none
  | some s => some s.duration

/-- Dictionary lookup of the state key. -/
def getState : Option Snapshot → Option String
  | none => none
  | some s => some s.state

/-- Dictionary lookup of the volume key. -/
def getVolume : Option Snapshot → Option Int
  | none => none
  | some s => some s.volume

/-- Model of _get_current_state: fetch the track dictionary, fetch the player
state with a stopped fallback for an empty answer, and assemble the snapshot
with volume hardcoded to 50. The enclosing try block of the source returns
the empty dictionary if anything raises; every modelled callee is total, so
that branch is unreachable here, and the monitor loop is nevertheless
modelled over Option Snapshot to cover it. The arguments are the adapter
outcomes of the track script, of the player state script nested inside
get_current_track, and of the state script the monitor runs itself. -/
def get_current_state (trackCall trackStateCall monStateCall : AdapterOutcome) :
    Option Snapshot :=
  let track_info := get_current_track trackCall trackStateCall
  let state_result := execute_applescript monStateCall
  let state := if state_result = "" then "stopped" else pyLower (pyStrip state_result)
  some { track_name := track_info.name, track_artist := track_info.artist,
         track_album := track_info.album, position := track_info.position,
         duration := track_info.duration, state := state, volume := 50 }

/-- The dictionary stored under the track key of a change dictionary; every
value is a lookup on the current state, hence optional. -/
structure TrackPayload where
  name : Option String
  artist : Option String
  album : Option String
  position : Option Rat
  duration : Option Rat
deriving DecidableEq

/-- A nonempty change dictionary: the type tag plus the optional track, state
and volume keys; an outer some marks the key as present. -/
structure ChangesDict where
  type : String
  track : Option TrackPayload := none
  state : Option (Option String) := none
  volume : Option (Option Int) := none
deriving DecidableEq

/-- The two dictionary shapes _detect_changes can return besides None: the
full update dictionary, which is the type key next to the spread of the whole
current state, or a nonempty change dictionary. -/
inductive DetectEvent where
  | full_update (current : Option Snapshot)
  | changed (c : ChangesDict)
deriving DecidableEq

/-- The type key of the dictionary _detect_changes returned, if any. -/
def event_type : Option DetectEvent → Option String
  | none => none
  | some (DetectEvent.full_update _) => some "full_update"
  | some (DetectEvent.changed c) => some c.type

/-- Model of _detect_changes: on an empty previous dictionary return the full
update; otherwise build the change dictionary key by key as the source does,
with the type tag set by the first category that differs, in the order track,
playback state, volume; position is never compared. Return None when no key
was added. -/
def detect_changes (last_state current_state : Option Snapshot) :
    Option DetectEvent :=
  match last_state with
  | none => some (DetectEvent.full_update current_state)
  | some _ =>
    let c1 : Option ChangesDict :=
      if getTrackName current_state ≠ getTrackName last_state ∨
         getTrackArtist current_state ≠ getTrackArtist last_state then
        some { type := "track_changed",
               track := some { name := getTrackName current_state,
                               artist := getTrackArtist current_state,
                               album := getTrackAlbum current_state,
                               position := getPosition current_state,
                               duration := getDuration current_state } }
      else none
    let c2 : Option ChangesDict :=
      if getState current_state ≠ getState last_state then
        some (match c1 with
          | none => { type := "playback_state_changed",
                      state := some (getState current_state) }
          | some c => { c with state := some (getState current_state) })
      else c1
    let c3 : Option ChangesDict :=
      if getVolume current_state ≠ getVolume last_state then
        some (match c2 with
          | none => { type := "volume_changed",
                      volume := some (getVolume current_state) }
          | some c => { c with volume := some (getVolume current_state) })
      else c2
    match c3 with
    | none => none
    | some c => some (DetectEvent.changed c)

/-- The fields of the MusicMonitor object the claims concern: the running
flag and the retained previous state dictionary. -/
structure MusicMonitor where
  running : Bool
  last_state : Option Snapshot
deriving DecidableEq

/-- A freshly constructed monitor: not running, last_state empty. -/
def MusicMonitor.init : MusicMonitor :=
  { running := false, last_state := none }

/-- Model of start: a no op when already running, otherwise it sets the flag
and spawns the loop thread; last_state is not touched. -/
def MusicMonitor.start (m : MusicMonitor) : MusicMonitor :=
  if m.running then m else { m with running := true }

/-- Model of stop: clears the flag and joins the thread with a bounded wait;
last_state is not touched. -/
def MusicMonitor.stop (m : MusicMonitor) : MusicMonitor :=
  { m with running := false }

/-- One iteration of _monitor_loop given the state it acquired: detect
changes against the retained previous state, hand any event to the callback,
and unconditionally store the new state. The broadcast callback installed by
server.py catches its own exceptions, so the store is always reached. -/
def monitor_cycle (m : MusicMonitor) (current_state : Option Snapshot) :
    MusicMonitor × Option DetectEvent :=
  let changes := detect_changes m.last_state current_state
  ({ m with last_state := current_state }, changes)

/-- A synchronous route answer: a body, or an error message with a status
code. -/
inductive HttpResponse (α : Type) where
  | ok (body : α)
  | error (msg : String) (code : Nat)
deriving DecidableEq

/-- The words of the authorization header, Python split with no argument. -/
def authParts (h : String) : List String :=
  pySplitWs h

/-- Model of the require_auth decorator around a route body f: a missing or
falsy header, a shape other than exactly two words with Bearer first, or a
second word different from the configured token answer 401 without
evaluating f; only the exact match reaches the body. -/
def require_auth {α : Type} (auth_token : String) (f : Unit → α)
    (auth_header : Option String) : HttpResponse α :=
  match auth_header with
  | none => HttpResponse.error "No authorization header provided" 401
  | some h =>
    if h = "" then HttpResponse.error "No authorization header provided" 401
    else
      let parts := authParts h
      if parts.length ≠ 2 ∨ parts.getD 0 "" ≠ "Bearer" then
        HttpResponse.error "Invalid authorization header format" 401
      else if parts.getD 1 "" ≠ auth_token then
        HttpResponse.error "Invalid authentication token" 401
      else HttpResponse.ok (f ())

/-- Model of set_volume in applescript_commands.py: clamp the level into 0 to
100 and hand the adapter the script carrying the clamped value; the pair is
the forwarded level next to the script text. -/
def set_volume (level : Int) : Int × String :=
  let clamped := max 0 (min 100 level)
  (clamped, "tell application \"Music\" to set sound volume to " ++ toString clamped)

/-- Model of the volume route body once past authentication: a missing body
or level key is a 400, a level the int builtin cannot parse is a 400,
otherwise the parsed level goes to set_volume and is echoed in the answer.
The argument is none for a missing body or key, some none for a failed
parse, and some (some level) for a parsed integer. -/
def volume_route (body : Option (Option Int)) :
    HttpResponse (Int × (Int × String)) :=
  match body with
  | none => HttpResponse.error "Volume level not provided" 400
  | some none => HttpResponse.error "Invalid volume level" 400
  | some (some level) => HttpResponse.ok (level, set_volume level)

/-- Concrete playing snapshot used by witnesses. -/
def snapA : Snapshot :=
  { track_name := some "Track A", track_artist := some "Artist One",
    track_album := some "Album", position := 10, duration := 200,
    state := "playing", volume := 50 }

/-- Like snapA but on another track and paused. -/
def snapB : Snapshot :=
  { track_name := some "Track B", track_artist := some "Artist One",
    track_album := some "Album", position := 0, duration := 180,
    state := "paused", volume := 50 }

/-- Concrete snapshot used by the restart counterexample. -/
def snapC : Snapshot :=
  { track_name := some "Track C", track_artist := some "Artist Two",
    track_album := some "Other Album", position := 3, duration := 120,
    state := "playing", volume := 50 }

/-- C1: with no previous snapshot retained the detector returns the full
update dictionary, the type tag next to the spread of exactly the current
state and nothing else. -/
theorem detect_first_cycle_full_update (cur : Option Snapshot) :
    detect_changes none cur = some (DetectEvent.full_update cur) := rfl

/-- C2: when both the track identity and the playback state differ between
the retained and the current snapshot, the detector reports the single type
tag track_changed and not playback_state_changed: the tag is set by the first
differing category in the fixed order track, playback state, volume. -/
theorem detect_track_precedence (p c : Snapshot)
    (htrack : c.track_name ≠ p.track_name ∨ c.track_artist ≠ p.track_artist)
    (hstate : c.state ≠ p.state) :
    event_type (detect_changes (some p) (some c)) = some "track_changed" ∧
    event_type (detect_changes (some p) (some c)) ≠ some "playback_state_changed" := by
  have hcond : getTrackName (some c) ≠ getTrackName (some p) ∨
      getTrackArtist (some c) ≠ getTrackArtist (some p) := by
    simpa [getTrackName, getTrackArtist] using htrack
  have hst : getState (some c) ≠ getState (some p) := by
    simpa [getState] using hstate
  have h1 : event_type (detect_changes (some p) (some c)) = some "track_changed" := by
    by_cases hv : getVolume (some c) = getVolume (some p) <;>
      simp [detect_changes, event_type, hcond, hst, hv]
  refine ⟨h1, ?_⟩
  rw [h1]
  decide

/-- Witness for C2 on two concrete snapshots where both the track and the
playback state differ. -/
theorem detect_track_precedence_witness :
    event_type (detect_changes (some snapA) (some snapB)) = some "track_changed" ∧
    event_type (detect_changes (some snapA) (some snapB)) ≠ some "playback_state_changed" :=
  detect_track_precedence snapA snapB (Or.inl (by decide)) (by decide)

/-- C3: two snapshots that differ only in the position field produce no
event. -/
theorem detect_position_only_no_event (p : Snapshot) (x : Rat) :
    detect_changes (some p) (some { p with position := x }) = none := by
  simp [detect_changes, getTrackName, getTrackArtist, getState, getVolume]

/-- C4: the detector is silent on an identical snapshot passed twice. -/
theorem detect_idempotent (s : Snapshot) :
    detect_changes (some s) (some s) = none := by
  simp [detect_changes]

/-- C5: every cycle stores the state acquired in that cycle as the retained
previous state; the equation holds for every monitor state and every
acquisition, hence in particular for cycles whose detection returned no
event. -/
theorem cycle_stores_snapshot (m : MusicMonitor) (cur : Option Snapshot) :
    (monitor_cycle m cur).1.last_state = cur := rfl

/-- With a nonempty previous dictionary the detector never returns a full
update, whatever the current state. -/
theorem detect_changes_some_ne_full (p : Snapshot) (cur x : Option Snapshot) :
    detect_changes (some p) cur ≠ some (DetectEvent.full_update x) := by
  simp only [detect_changes]
  split_ifs <;> simp

/-- C10: a cycle whose acquisition failed stores the empty dictionary, and
the following cycle then returns a full update of its current state whatever
the monitor had retained before, because the detector treats an empty
retained dictionary exactly like the absent one of the first cycle. -/
theorem empty_previous_full_update (m : MusicMonitor) (cur : Option Snapshot) :
    (monitor_cycle (monitor_cycle m none).1 cur).2 =
      some (DetectEvent.full_update cur) := rfl

/-- C6 counterexample: start a fresh monitor, complete one cycle on a
concrete snapshot, stop and start again; the restarted monitor still retains
that snapshot, so its first cycle does not begin from a no previous snapshot
state, and on an unchanged player it emits nothing rather than a full
update. -/
theorem stop_start_counterexample :
    ((monitor_cycle MusicMonitor.init.start (some snapC)).1.stop.start).last_state
      = some snapC ∧
    (monitor_cycle ((monitor_cycle MusicMonitor.init.start (some snapC)).1.stop.start)
      (some snapC)).2 = none := by
  constructor <;> rfl

/-- C6 amended: stop followed by start leaves the retained snapshot in place
and only sets the running flag again; the first cycle of the restarted loop
emits a full update exactly when the retained dictionary is empty, as on a
monitor that never completed a cycle, and otherwise compares against the
snapshot retained before the stop. -/
theorem stop_start_retains_last_state (m : MusicMonitor) (cur : Option Snapshot) :
    (m.stop.start).last_state = m.last_state ∧
    (m.stop.start).running = true ∧
    ((monitor_cycle (m.stop.start) cur).2 = some (DetectEvent.full_update cur) ↔
      m.last_state = none) := by
  refine ⟨rfl, rfl, ?_⟩
  cases hm : m.last_state with
  | none =>
    simp [monitor_cycle, MusicMonitor.stop, MusicMonitor.start, hm, detect_changes]
  | some p =>
    have hne := detect_changes_some_ne_full p cur cur
    simp [monitor_cycle, MusicMonitor.stop, MusicMonitor.start, hm, hne]

/-- C7 counterexample: the track script call times out, an adapter failure,
while the state script answers playing; acquisition then returns a snapshot
whose playback state is playing, which is neither stopped nor error, so a
failure does not produce the stopped or error sentinel the claim describes. -/
theorem acquisition_failure_state_counterexample :
    AdapterOutcome.timeout.failed = true ∧
    getState (get_current_state AdapterOutcome.timeout
      (AdapterOutcome.output "playing") (AdapterOutcome.output "playing")) = some "playing" ∧
    (some "playing" : Option String) ≠ some "stopped" ∧
    (some "playing" : Option String) ≠ some "error" := by
  refine ⟨rfl, rfl, by decide, by decide⟩

/-- C7 amended: when the track adapter call fails, acquisition still returns
a dictionary rather than raising; all optional track fields of it are absent
and position, duration and volume carry their fixed defaults, so no partial
track data from the failed read is mixed in; the playback state field is the
separately fetched state string with its stopped fallback, and need not be
stopped or error. -/
theorem acquisition_failure_sentinel (tc tsc msc : AdapterOutcome)
    (hfail : tc.failed = true) :
    (get_current_state tc tsc msc).isSome = true ∧
    getTrackName (get_current_state tc tsc msc) = none ∧
    getTrackArtist (get_current_state tc tsc msc) = none ∧
    getTrackAlbum (get_current_state tc tsc msc) = none ∧
    getPosition (get_current_state tc tsc msc) = some 0 ∧
    getDuration (get_current_state tc tsc msc) = some 0 ∧
    getVolume (get_current_state tc tsc msc) = some 50 ∧
    getState (get_current_state tc tsc msc) =
      some (if execute_applescript msc = "" then "stopped"
            else pyLower (pyStrip (execute_applescript msc))) := by
  cases tc with
  | output s => simp [AdapterOutcome.failed] at hfail
  | timeout => exact ⟨rfl, rfl, rfl, rfl, rfl, rfl, rfl, rfl⟩
  | exn => exact ⟨rfl, rfl, rfl, rfl, rfl, rfl, rfl, rfl⟩

/-- Witness for C7 amended at the timed out track call with a playing state
answer. -/
theorem acquisition_failure_sentinel_witness :
    AdapterOutcome.timeout.failed = true ∧
    getTrackName (get_current_state AdapterOutcome.timeout
      (AdapterOutcome.output "playing") (AdapterOutcome.output "playing")) = none :=
  ⟨by decide,
   (acquisition_failure_sentinel AdapterOutcome.timeout
     (AdapterOutcome.output "playing") (AdapterOutcome.output "playing") (by decide)).2.1⟩

/-- C8: a protected route body runs exactly when the authorization header
splits into the two words Bearer and the configured token; in every other
case the decorator answers 401 with an error message, and that answer is the
same whatever the body, so the body and the adapter behind it are never
invoked. -/
theorem require_auth_correct (tok : String) (hdr : Option String) (f g : Unit → Nat) :
    (require_auth tok f hdr = HttpResponse.ok (f ()) ∨
      (require_auth tok g hdr = require_auth tok f hdr ∧
        ∃ msg, require_auth tok f hdr = HttpResponse.error msg 401)) ∧
    (require_auth tok f hdr = HttpResponse.ok (f ()) ↔
      ∃ s, hdr = some s ∧ authParts s = ["Bearer", tok]) := by
  cases hdr with
  | none =>
    refine ⟨Or.inr ⟨rfl, "No authorization header provided", rfl⟩, ?_⟩
    simp [require_auth]
  | some h =>
    by_cases h0 : h = ""
    · subst h0
      refine ⟨Or.inr ⟨rfl, "No authorization header provided", rfl⟩, ?_⟩
      have hempty : authParts "" = [] := rfl
      constructor
      · intro hok; simp [require_auth] at hok
      · rintro ⟨s, hs, hp⟩
        obtain rfl : "" = s := Option.some.inj hs
        rw [hempty] at hp
        simp at hp
    · rcases hl : authParts h with _ | ⟨a, _ | ⟨b, _ | ⟨c, t⟩⟩⟩
      · have herr : require_auth tok f (some h)
            = HttpResponse.error "Invalid authorization header format" 401 := by
          simp [require_auth, h0, hl]
        have herrg : require_auth tok g (some h)
            = HttpResponse.error "Invalid authorization header format" 401 := by
          simp [require_auth, h0, hl]
        refine ⟨Or.inr ⟨herrg.trans herr.symm, _, herr⟩, ?_⟩
        rw [herr]
        constructor
        · intro hok; exact HttpResponse.noConfusion hok
        · rintro ⟨s, hs, hp⟩
          obtain rfl : h = s := Option.some.inj hs
          rw [hl] at hp
          simp at hp
      · have herr : require_auth tok f (some h)
            = HttpResponse.error "Invalid authorization header format" 401 := by
          simp [require_auth, h0, hl]
        have herrg : require_auth tok g (some h)
            = HttpResponse.error "Invalid authorization header format" 401 := by
          simp [require_auth, h0, hl]
        refine ⟨Or.inr ⟨herrg.trans herr.symm, _, herr⟩, ?_⟩
        rw [herr]
        constructor
        · intro hok; exact HttpResponse.noConfusion hok
        · rintro ⟨s, hs, hp⟩
          obtain rfl : h = s := Option.some.inj hs
          rw [hl] at hp
          simp at hp
      · by_cases hb : a = "Bearer"
        · by_cases ht : b = tok
          · have hok : require_auth tok f (some h) = HttpResponse.ok (f ()) := by
              simp [require_auth, h0, hl, hb, ht]
            refine ⟨Or.inl hok, ?_⟩
            constructor
            · intro _
              exact ⟨h, rfl, by rw [hl, hb, ht]⟩
            · intro _; exact hok
          · have herr : require_auth tok f (some h)
                = HttpResponse.error "Invalid authentication token" 401 := by
              simp [require_auth, h0, hl, hb, ht]
            have herrg : require_auth tok g (some h)
                = HttpResponse.error "Invalid authentication token" 401 := by
              simp [require_auth, h0, hl, hb, ht]
            refine ⟨Or.inr ⟨herrg.trans herr.symm, _, herr⟩, ?_⟩
            rw [herr]
            constructor
            · intro hok; exact HttpResponse.noConfusion hok
            · rintro ⟨s, hs, hp⟩
              obtain rfl : h = s := Option.some.inj hs
              rw [hl] at hp
              simp at hp
              exact absurd hp.2 ht
        · have herr : require_auth tok f (some h)
              = HttpResponse.error "Invalid authorization header format" 401 := by
            simp [require_auth, h0, hl, hb]
          have herrg : require_auth tok g (some h)
              = HttpResponse.error "Invalid authorization header format" 401 := by
            simp [require_auth, h0, hl, hb]
          refine ⟨Or.inr ⟨herrg.trans herr.symm, _, herr⟩, ?_⟩
          rw [herr]
          constructor
          · intro hok; exact HttpResponse.noConfusion hok
          · rintro ⟨s, hs, hp⟩
            obtain rfl : h = s := Option.some.inj hs
            rw [hl] at hp
            simp at hp
            exact absurd hp.1 hb
      · have herr : require_auth tok f (some h)
            = HttpResponse.error "Invalid authorization header format" 401 := by
          simp [require_auth, h0, hl]
        have herrg : require_auth tok g (some h)
            = HttpResponse.error "Invalid authorization header format" 401 := by
          simp [require_auth, h0, hl]
        refine ⟨Or.inr ⟨herrg.trans herr.symm, _, herr⟩, ?_⟩
        rw [herr]
        constructor
        · intro hok; exact HttpResponse.noConfusion hok
        · rintro ⟨s, hs, hp⟩
          obtain rfl : h = s := Option.some.inj hs
          rw [hl] at hp
          simp at hp

/-- C9: the volume command clamps every integer level into 0 to 100 before
forwarding it to the adapter; a requested level of 150 is forwarded as 100.
The route passes the parsed integer through to set_volume unchanged. -/
theorem volume_clamped (level : Int) :
    volume_route (some (some level)) = HttpResponse.ok (level, set_volume level) ∧
    0 ≤ (set_volume level).1 ∧ (set_volume level).1 ≤ 100 ∧
    (set_volume 150).1 = 100 := by
  refine ⟨rfl, ?_, ?_, ?_⟩
  · show (0 : Int) ≤ max 0 (min 100 level)
    omega
  · show max 0 (min 100 level) ≤ 100
    omega
  · show max 0 (min 100 (150 : Int)) = 100
    omega
